import Mathlib

/-!
Shallow embedding of the task-management UI components of this repository:
the Task Collection View (list with sorting, multi-select and deletion) found
in src/app/_components/TasksList.tsx, and the Dashboard/Creation View (task
creation form). Network effects (requests, toasts, console logs) are recorded
in an explicit effect trace; the outcome of each network call is supplied as
an oracle argument (success data or failure), matching the try/catch paths of
the source.
-/

namespace TaskEzy

/-- Kind of a toast notification: success or error. -/
inductive ToastKind
  | success
  | error
deriving DecidableEq, Repr

/-- A task record as held by the Task Collection View (TasksList.tsx).
dueDate and priority are nullable strings in the source; the JS falsiness of
the empty string is modelled separately by `truthy`. -/
structure Task where
  id : String
  title : String
  dueDate : Option String
  priority : Option String
  createdAt : String
  updatedAt : String
deriving DecidableEq, Repr

/-- The five sort keys of the Task Collection View. -/
inductive SortOption
  | dueDate
  | priority
  | createdAt
  | updatedAt
  | title
deriving DecidableEq, Repr

/-- Observable side effects of the UI handlers: network requests issued,
toasts shown via showToast/setToast, and console.error logs. -/
inductive Effect
  | fetchReq
  | deleteReq (id : String)
  | postReq (title description dueDate priority status tags : String)
  | toast (message : String) (kind : ToastKind)
  | logErr (message : String)
deriving DecidableEq, Repr

/-- Component state of the Task Collection View (the useState hooks of
TasksComponent, omitting the pure rendering toggle viewMode and the
transient toast display). -/
structure ListState where
  tasks : List Task
  selectedTasks : List String
  isDeleteModalOpen : Bool
  tasksToDelete : List String
  currentSort : Option SortOption
  originalOrder : List Task
deriving DecidableEq, Repr

/-- JS truthiness of a nullable string: null and the empty string are falsy. -/
def truthy : Option String → Bool
  | none => false
  | some s => !(s == "")

/-- fetchTasks of TasksList.tsx: on success replaces both the working copy
and the retained original order; on failure (thrown on transport error or on
a non-ok status) logs and shows an error toast, leaving state unchanged. -/
def fetchTasks (result : Option (List Task)) (s : ListState) :
    ListState × List Effect :=
  match result with
  | some data => ({ s with tasks := data, originalOrder := data }, [.fetchReq])
  | none =>
      (s, [.fetchReq, .logErr "Error fetching tasks:",
           .toast "Failed to fetch tasks" .error])

/-- toggleTaskSelection: removes the id if present, else appends it. -/
def toggleTaskSelection (taskId : String) (s : ListState) : ListState :=
  if s.selectedTasks.contains taskId then
    { s with selectedTasks := s.selectedTasks.filter (fun id => id != taskId) }
  else
    { s with selectedTasks := s.selectedTasks ++ [taskId] }

/-- selectAllTasks: selection becomes the ids of all displayed tasks. -/
def selectAllTasks (s : ListState) : ListState :=
  { s with selectedTasks := s.tasks.map Task.id }

/-- cancelSelection: clears the selection. -/
def cancelSelection (s : ListState) : ListState :=
  { s with selectedTasks := [] }

/-- openDeleteModal: snapshots the selection into tasksToDelete and opens
the confirmation modal. -/
def openDeleteModal (s : ListState) : ListState :=
  { s with tasksToDelete := s.selectedTasks, isDeleteModalOpen := true }

/-- closeDeleteModal: closes the modal and clears tasksToDelete. -/
def closeDeleteModal (s : ListState) : ListState :=
  { s with isDeleteModalOpen := false, tasksToDelete := [] }

/-- Effects of one iteration of the deleteSelectedTasks loop: the DELETE
request is always issued; a failure is additionally logged. -/
def perDeleteEffects (ok : String → Bool) (taskId : String) : List Effect :=
  if ok taskId then [.deleteReq taskId]
  else [.deleteReq taskId, .logErr ("Error deleting task " ++ taskId ++ ":")]

/-- Effect trace of the whole deleteSelectedTasks loop over a list of ids. -/
def batchDeleteEffects (ok : String → Bool) : List String → List Effect
  | [] => []
  | id :: rest => perDeleteEffects ok id ++ batchDeleteEffects ok rest

/-- deleteSelectedTasks of TasksList.tsx: issues one DELETE per id in
tasksToDelete, tallies successes and failures, shows a toast for each
nonzero tally, re-fetches the collection, clears the selection and closes
the modal. `ok` is the per-id request outcome oracle; `refetch` the result
of the final fetch. -/
def deleteSelectedTasks (ok : String → Bool) (refetch : Option (List Task))
    (s : ListState) : ListState × List Effect :=
  let successCount := (s.tasksToDelete.filter ok).length
  let errorCount := (s.tasksToDelete.filter (fun id => !(ok id))).length
  let reqFx := batchDeleteEffects ok s.tasksToDelete
  let tallyFx :=
    (if successCount > 0 then
      [Effect.toast ("Successfully deleted " ++ toString successCount ++ " task(s)")
        .success]
     else []) ++
    (if errorCount > 0 then
      [Effect.toast ("Failed to delete " ++ toString errorCount ++ " task(s)")
        .error]
     else [])
  let fRes := fetchTasks refetch s
  ({ fRes.1 with selectedTasks := [], isDeleteModalOpen := false,
                 tasksToDelete := [] },
   reqFx ++ tallyFx ++ fRes.2)

/-- Rank used by the priority comparator: the JS lookup table
\x7b High: 3, Medium: 2, Low: 1, null: 0 \x7d indexed by the priority with
`|| 0` as fallback, so null and every unrecognized string rank 0. -/
def priorityRank : Option String → Int
  | none => 0
  | some s => if s = "High" then 3 else if s = "Medium" then 2
              else if s = "Low" then 1 else 0

/-- The priority case of the sort comparator: descending by rank. -/
def comparePriority (a b : Task) : Int :=
  priorityRank b.priority - priorityRank a.priority

/-- The due-date case of the sort comparator. `getTime` models
`new Date(s).getTime()` for the date strings that reach it. Falsy due dates
(null or empty string) tie with each other and sort after any truthy one;
two truthy dates compare descending by time value. -/
def compareDueDate (getTime : String → Int) (a b : Task) : Int :=
  if !(truthy a.dueDate) && !(truthy b.dueDate) then 0
  else if !(truthy a.dueDate) then 1
  else if !(truthy b.dueDate) then -1
  else getTime (b.dueDate.getD "") - getTime (a.dueDate.getD "")

/-- The full comparator of sortTasks, one case per sort key. `localeCompare`
models String.prototype.localeCompare for the title case. -/
def taskCompare (getTime : String → Int) (localeCompare : String → String → Int) :
    SortOption → Task → Task → Int
  | .dueDate, a, b => compareDueDate getTime a b
  | .priority, a, b => comparePriority a b
  | .createdAt, a, b => getTime b.createdAt - getTime a.createdAt
  | .updatedAt, a, b => getTime b.updatedAt - getTime a.updatedAt
  | .title, a, b => localeCompare a.title b.title

/-- Stable insertion of a task into an already sorted list: the new element
goes before the first element it does not compare strictly after, preserving
the relative order of ties as a stable JS Array.sort does. -/
def insertSorted (cmp : Task → Task → Int) (x : Task) : List Task → List Task
  | [] => [x]
  | y :: ys => if cmp x y ≤ 0 then x :: y :: ys else y :: insertSorted cmp x ys

/-- Stable sort of the working list by a comparator. -/
def sortTasksList (cmp : Task → Task → Int) : List Task → List Task
  | [] => []
  | x :: xs => insertSorted cmp x (sortTasksList cmp xs)

/-- sortTasks of TasksList.tsx: re-derives the displayed order from the
current working list by the comparator for the given key. -/
def sortTasks (getTime : String → Int) (localeCompare : String → String → Int)
    (o : SortOption) (s : ListState) : ListState :=
  { s with tasks := sortTasksList (taskCompare getTime localeCompare o) s.tasks }

/-- The sort effect of TasksComponent: whenever currentSort changes, either
re-sorts the working list by the active key or, with no active key, restores
the retained original order. -/
def applySortEffect (getTime : String → Int)
    (localeCompare : String → String → Int) (s : ListState) : ListState :=
  match s.currentSort with
  | some o => sortTasks getTime localeCompare o s
  | none => { s with tasks := s.originalOrder }

/-- handleSortClick followed by the sort effect: clicking the active key
clears the sort, clicking any other key activates it. -/
def handleSortClick (getTime : String → Int)
    (localeCompare : String → String → Int) (o : SortOption) (s : ListState) :
    ListState :=
  let s1 := if s.currentSort = some o then { s with currentSort := none }
            else { s with currentSort := some o }
  applySortEffect getTime localeCompare s1

/-- handleDeleteTask of TasksList.tsx: single-task deletion outside the
multi-select flow. On success shows a success toast and re-fetches; on
failure logs and shows an error toast. The selection state is not touched
on either path. -/
def handleDeleteTask (ok : Bool) (refetch : Option (List Task))
    (taskId : String) (s : ListState) : ListState × List Effect :=
  if ok then
    let fRes := fetchTasks refetch s
    (fRes.1, [.deleteReq taskId, .toast "Task deleted successfully" .success]
             ++ fRes.2)
  else
    (s, [.deleteReq taskId, .logErr ("Error deleting task " ++ taskId ++ ":"),
         .toast "Failed to delete task" .error])

/-- Discriminator: is this effect any toast. -/
def Effect.isToast : Effect → Bool
  | .toast _ _ => true
  | _ => false

/-- Discriminator: is this effect a success toast. -/
def Effect.isSuccessToast : Effect → Bool
  | .toast _ .success => true
  | _ => false

/-- Discriminator: is this effect an error toast. -/
def Effect.isErrorToast : Effect → Bool
  | .toast _ .error => true
  | _ => false

/-- Discriminator: is this effect a collection fetch request. -/
def Effect.isFetchReq : Effect → Bool
  | .fetchReq => true
  | _ => false

/-- Discriminator: is this effect any network request. -/
def Effect.isNetRequest : Effect → Bool
  | .fetchReq => true
  | .deleteReq _ => true
  | .postReq _ _ _ _ _ _ => true
  | _ => false

/-- Discriminator: is this effect a console.error log. -/
def Effect.isLog : Effect → Bool
  | .logErr _ => true
  | _ => false

/-- The ids of the DELETE requests in an effect trace, in issue order. -/
def deleteReqIds (fx : List Effect) : List String :=
  fx.filterMap fun e => match e with
    | .deleteReq id => some id
    | _ => none

/-- A task record as held by the Dashboard view (its local Task interface,
with status and tags). -/
structure DashTask where
  id : String
  title : String
  createdAt : String
  dueDate : Option String
  priority : Option String
  status : String
  tags : Option String
deriving DecidableEq, Repr

/-- Component state of the Dashboard/Creation View: the six form fields and
the sidebar task list (the clock and toast display timers are transient
rendering state and carry no data the handlers read). -/
structure DashState where
  taskTitle : String
  taskDescription : String
  dueDate : String
  priority : String
  status : String
  tags : String
  tasks : List DashTask
deriving DecidableEq, Repr

/-- Outcome of the Dashboard GET of the task collection, distinguishing a
non-ok HTTP status from a thrown transport error, which the source handles
in different branches. -/
inductive FetchOutcome
  | ok (data : List DashTask)
  | httpError
  | transportError
deriving DecidableEq, Repr

/-- fetchTasks of the Dashboard view: on success replaces the sidebar list;
on a non-ok status or a transport error it only logs to console.error — no
toast is set on either failure path. -/
def dashboardFetchTasks (result : FetchOutcome) (s : DashState) :
    DashState × List Effect :=
  match result with
  | .ok data => ({ s with tasks := data }, [.fetchReq])
  | .httpError => (s, [.fetchReq, .logErr "Failed to fetch tasks"])
  | .transportError => (s, [.fetchReq, .logErr "Error fetching tasks:"])

/-- Outcome of the POST creating a task: success, a non-ok status whose JSON
body optionally carries a message, or a thrown transport error. -/
inductive SubmitOutcome
  | ok
  | httpError (message : Option String)
  | transportError
deriving DecidableEq, Repr

/-- JS String.prototype.trim: drops leading and trailing whitespace,
written over the character list so it evaluates by kernel reduction. -/
def jsTrim (s : String) : String :=
  ⟨((s.data.dropWhile Char.isWhitespace).reverse.dropWhile
      Char.isWhitespace).reverse⟩

/-- resetForm of the Dashboard view: all fields back to their defaults. -/
def resetForm (s : DashState) : DashState :=
  { s with taskTitle := "", taskDescription := "", dueDate := "",
           priority := "", status := "Not Started", tags := "" }

/-- The error-toast message on a non-ok creation response:
`errorData.message || "Failed to add task"`, so an absent or empty message
falls back to the generic text. -/
def submitErrorMessage : Option String → String
  | some m => if m = "" then "Failed to add task" else m
  | none => "Failed to add task"

/-- handleSubmit of the Dashboard view. A title that is empty after trimming
aborts with an error toast before any request. Otherwise the trimmed field
set is posted; on success the form is reset, a success toast shown and the
collection re-fetched; on a non-ok status the server message (or fallback)
is shown and the form kept; on a transport error a generic error toast is
shown and the form kept. -/
def handleSubmit (outcome : SubmitOutcome) (refetch : FetchOutcome)
    (s : DashState) : DashState × List Effect :=
  if jsTrim s.taskTitle = "" then
    (s, [.toast "Task title is required" .error])
  else
    let post := Effect.postReq (jsTrim s.taskTitle) (jsTrim s.taskDescription)
      s.dueDate s.priority s.status (jsTrim s.tags)
    match outcome with
    | .ok =>
        let fRes := dashboardFetchTasks refetch (resetForm s)
        (fRes.1, [post, .toast "Task added successfully!" .success] ++ fRes.2)
    | .httpError msg =>
        (s, [post, .toast (submitErrorMessage msg) .error])
    | .transportError =>
        (s, [post, .logErr "Error adding task:",
             .toast "Error adding task" .error])

/-- Selection-state operations available while the confirmation modal is
open (the modal does not block the page in the source). -/
inductive SelOp
  | toggle (id : String)
  | selectAll
  | cancel
deriving DecidableEq, Repr

/-- Apply one selection operation. -/
def applySelOp : SelOp → ListState → ListState
  | .toggle id, s => toggleTaskSelection id s
  | .selectAll, s => selectAllTasks s
  | .cancel, s => cancelSelection s

/-- Apply a sequence of selection operations left to right. -/
def applySelOps (ops : List SelOp) (s : ListState) : ListState :=
  ops.foldl (fun s op => applySelOp op s) s

/-- A concrete task with no due date and no priority, used as a base for
concrete instantiations. -/
def sampleTask : Task :=
  { id := "1", title := "A", dueDate := none, priority := none,
    createdAt := "2024-01-01", updatedAt := "2024-01-02" }

/-- A concrete Task Collection View state with one displayed task that is
currently selected. -/
def sampleListState : ListState :=
  { tasks := [sampleTask], selectedTasks := ["1"], isDeleteModalOpen := false,
    tasksToDelete := [], currentSort := none, originalOrder := [sampleTask] }

/-- A concrete Dashboard form state with a nonblank title. -/
def sampleDash : DashState :=
  { taskTitle := "Buy milk", taskDescription := " d ", dueDate := "2024-06-01",
    priority := "Low", status := "Not Started", tags := "a,b", tasks := [] }

/-- The selection invariant of the spec: every selected id is the id of a
currently displayed task. -/
def SelSubset (s : ListState) : Prop :=
  ∀ id ∈ s.selectedTasks, id ∈ s.tasks.map Task.id

instance (s : ListState) : Decidable (SelSubset s) :=
  inferInstanceAs (Decidable (∀ id ∈ s.selectedTasks, id ∈ s.tasks.map Task.id))

lemma mem_insertSorted (cmp : Task → Task → Int) (x a : Task) (l : List Task) :
    a ∈ insertSorted cmp x l ↔ a = x ∨ a ∈ l := by
  induction l with
  | nil => simp [insertSorted]
  | cons y ys ih =>
      by_cases h : cmp x y ≤ 0
      · simp [insertSorted, h]
      · simp only [insertSorted, if_neg h, List.mem_cons, ih]
        tauto

lemma mem_sortTasksList (cmp : Task → Task → Int) (a : Task) (l : List Task) :
    a ∈ sortTasksList cmp l ↔ a ∈ l := by
  induction l with
  | nil => simp [sortTasksList]
  | cons x xs ih => simp [sortTasksList, mem_insertSorted, ih]

lemma batchDeleteEffects_filter_eq_nil (ok : String → Bool) (ids : List String)
    (p : Effect → Bool) (hd : ∀ id, p (.deleteReq id) = false)
    (hl : ∀ m, p (.logErr m) = false) :
    (batchDeleteEffects ok ids).filter p = [] := by
  induction ids with
  | nil => simp [batchDeleteEffects]
  | cons id rest ih =>
      by_cases h : ok id <;>
        simp [batchDeleteEffects, perDeleteEffects, h, List.filter_append, ih,
              hd, hl]

lemma deleteReqIds_batchDeleteEffects (ok : String → Bool) (ids : List String) :
    deleteReqIds (batchDeleteEffects ok ids) = ids := by
  induction ids with
  | nil => simp [batchDeleteEffects, deleteReqIds]
  | cons id rest ih =>
      by_cases h : ok id <;>
        simpa [batchDeleteEffects, perDeleteEffects, h, deleteReqIds,
               List.filterMap_append] using ih

lemma applySelOps_tasksToDelete (ops : List SelOp) (s : ListState) :
    (applySelOps ops s).tasksToDelete = s.tasksToDelete := by
  induction ops generalizing s with
  | nil => rfl
  | cons op rest ih =>
      cases op <;>
        simp [applySelOps, List.foldl_cons, applySelOp, toggleTaskSelection,
              selectAllTasks, cancelSelection] at ih ⊢ <;>
        first
          | exact ih _
          | (split <;> exact ih _)

/-- C3: toggling the same sort key twice — activating it from a state where
it is not the active key, then toggling it again to clear it — restores the
displayed task order exactly to the retained original fetch order. -/
theorem sort_toggle_twice_restores_original (getTime : String → Int)
    (localeCompare : String → String → Int) (o : SortOption) (s : ListState)
    (h : s.currentSort ≠ some o) :
    (handleSortClick getTime localeCompare o
      (handleSortClick getTime localeCompare o s)).tasks = s.originalOrder := by
  simp [handleSortClick, applySortEffect, sortTasks, h]

/-- Witness for C3 at a concrete state with an initial fetch order of two
tasks and no active sort key. -/
theorem sort_toggle_twice_restores_original_witness :
    (handleSortClick (fun _ => 0) (fun _ _ => 0) SortOption.title
      (handleSortClick (fun _ => 0) (fun _ _ => 0) SortOption.title
        { tasks := [sampleTask, { sampleTask with id := "2" }],
          selectedTasks := [], isDeleteModalOpen := false, tasksToDelete := [],
          currentSort := none,
          originalOrder := [sampleTask, { sampleTask with id := "2" }] })).tasks
      = [sampleTask, { sampleTask with id := "2" }] :=
  sort_toggle_twice_restores_original (fun _ => 0) (fun _ _ => 0)
    SortOption.title _ (by decide)

/-- C4: the due-date comparator puts a dated task before a dateless one in
either argument order, and compares two dated tasks by time value
descending, so a strictly later date comes first. -/
theorem dueDate_comparator_order (getTime : String → Int) (a b : Task) :
    (truthy a.dueDate = true → truthy b.dueDate = false →
      compareDueDate getTime a b = -1 ∧ compareDueDate getTime b a = 1)
  ∧ (truthy a.dueDate = true → truthy b.dueDate = true →
      compareDueDate getTime a b =
        getTime (b.dueDate.getD "") - getTime (a.dueDate.getD "")
      ∧ (getTime (b.dueDate.getD "") < getTime (a.dueDate.getD "") →
          compareDueDate getTime a b < 0)) := by
  constructor
  · intro ha hb
    simp [compareDueDate, ha, hb]
  · intro ha hb
    refine ⟨by simp [compareDueDate, ha, hb], fun hlt => ?_⟩
    simp [compareDueDate, ha, hb]
    omega

/-- Witness for C4: with time = string length, a dated task precedes a
dateless one and the longer (later) of two dates precedes the shorter. -/
theorem dueDate_comparator_order_witness :
    compareDueDate (fun s => (s.length : Int))
      { sampleTask with dueDate := some "2024-06-01" } sampleTask = -1
  ∧ compareDueDate (fun s => (s.length : Int))
      { sampleTask with dueDate := some "2024-06-011" }
      { sampleTask with dueDate := some "2024-06-01" } < 0 := by
  refine ⟨((dueDate_comparator_order (fun s => (s.length : Int))
    { sampleTask with dueDate := some "2024-06-01" } sampleTask).1
      (by decide) (by decide)).1, ?_⟩
  exact ((dueDate_comparator_order (fun s => (s.length : Int))
    { sampleTask with dueDate := some "2024-06-011" }
    { sampleTask with dueDate := some "2024-06-01" }).2
      (by decide) (by decide)).2 (by decide)

/-- C5: the priority rank maps High to 3, Medium to 2, Low to 1, absent to
0 and every unrecognized string to 0, and the comparator orders strictly
higher-ranked tasks first (descending). -/
theorem priority_comparator_ranks (a b : Task) :
    priorityRank (some "High") = 3 ∧ priorityRank (some "Medium") = 2
  ∧ priorityRank (some "Low") = 1 ∧ priorityRank none = 0
  ∧ (∀ p : String, p ≠ "High" → p ≠ "Medium" → p ≠ "Low" →
      priorityRank (some p) = 0)
  ∧ (priorityRank b.priority < priorityRank a.priority →
      comparePriority a b < 0) := by
  refine ⟨rfl, rfl, rfl, rfl, fun p h1 h2 h3 => ?_, fun h => ?_⟩
  · simp [priorityRank, h1, h2, h3]
  · simp [comparePriority]
    omega

/-- Witness for C5: an unrecognized priority string ranks 0 like absent, and
High precedes it under the comparator. -/
theorem priority_comparator_ranks_witness :
    priorityRank (some "Urgent") = 0
  ∧ comparePriority { sampleTask with priority := some "High" }
      { sampleTask with priority := some "Urgent" } < 0 :=
  ⟨(priority_comparator_ranks sampleTask sampleTask).2.2.2.2.1 "Urgent"
      (by decide) (by decide) (by decide),
   (priority_comparator_ranks { sampleTask with priority := some "High" }
      { sampleTask with priority := some "Urgent" }).2.2.2.2.2 (by decide)⟩

/-- C10: an empty-string due date behaves exactly like an absent one in the
due-date comparator — interchangeable in either argument, sorting after
every dated task and tying with every other dateless or empty-dated task. -/
theorem empty_dueDate_like_no_date (getTime : String → Int) (a b : Task) :
    compareDueDate getTime { a with dueDate := some "" } b
      = compareDueDate getTime { a with dueDate := none } b
  ∧ compareDueDate getTime a { b with dueDate := some "" }
      = compareDueDate getTime a { b with dueDate := none }
  ∧ (truthy b.dueDate = true →
      compareDueDate getTime { a with dueDate := some "" } b = 1)
  ∧ compareDueDate getTime { a with dueDate := some "" }
      { b with dueDate := some "" } = 0
  ∧ compareDueDate getTime { a with dueDate := some "" }
      { b with dueDate := none } = 0 := by
  refine ⟨?_, ?_, fun hb => ?_, ?_, ?_⟩
  · simp [compareDueDate, truthy]
  · simp [compareDueDate, truthy]
  · cases hdb : b.dueDate with
    | none => simp [truthy, hdb] at hb
    | some sb =>
        simp only [truthy, hdb] at hb
        simp [compareDueDate, truthy, hdb, hb]
  · simp [compareDueDate, truthy]
  · simp [compareDueDate, truthy]

/-- Witness for C10: an empty-string-dated task sorts after a dated one. -/
theorem empty_dueDate_like_no_date_witness :
    compareDueDate (fun s => (s.length : Int))
      { sampleTask with dueDate := some "" }
      { sampleTask with dueDate := some "2024-06-01" } = 1 :=
  (empty_dueDate_like_no_date (fun s => (s.length : Int)) sampleTask
    { sampleTask with dueDate := some "2024-06-01" }).2.2.1 (by decide)

/-- C7: submitting with a title that is empty or whitespace-only (trims to
the empty string) emits exactly one error toast, issues no network request,
and leaves every form field unchanged. -/
theorem empty_title_submit_aborts (outcome : SubmitOutcome)
    (refetch : FetchOutcome) (s : DashState) (h : jsTrim s.taskTitle = "") :
    handleSubmit outcome refetch s
      = (s, [Effect.toast "Task title is required" ToastKind.error])
  ∧ ((handleSubmit outcome refetch s).2.filter Effect.isNetRequest = []) := by
  refine ⟨by simp [handleSubmit, h], ?_⟩
  simp [handleSubmit, h, Effect.isNetRequest, List.filter]

/-- Witness for C7 at a whitespace-only title. -/
theorem empty_title_submit_aborts_witness :
    handleSubmit SubmitOutcome.ok (FetchOutcome.ok [])
        { sampleDash with taskTitle := "   " }
      = ({ sampleDash with taskTitle := "   " },
         [Effect.toast "Task title is required" ToastKind.error]) :=
  (empty_title_submit_aborts SubmitOutcome.ok (FetchOutcome.ok [])
    { sampleDash with taskTitle := "   " } (by decide)).1

/-- C1: confirming a batch delete emits the success-count toast exactly when
some delete succeeded and the failure-count toast exactly when some delete
failed (the only other possible error toast being the one of a failing
re-fetch), issues exactly one collection re-fetch, and clears the selection
and the confirmation state whatever the outcomes. -/
theorem batch_delete_toasts_and_refetch (ok : String → Bool)
    (refetch : Option (List Task)) (s : ListState) :
    ((deleteSelectedTasks ok refetch s).2.filter Effect.isSuccessToast =
      if 0 < (s.tasksToDelete.filter ok).length then
        [Effect.toast ("Successfully deleted "
            ++ toString (s.tasksToDelete.filter ok).length ++ " task(s)")
          ToastKind.success]
      else [])
  ∧ ((deleteSelectedTasks ok refetch s).2.filter Effect.isErrorToast =
      (if 0 < (s.tasksToDelete.filter (fun id => !(ok id))).length then
        [Effect.toast ("Failed to delete "
            ++ toString (s.tasksToDelete.filter (fun id => !(ok id))).length
            ++ " task(s)") ToastKind.error]
      else [])
      ++ (if refetch.isNone then
            [Effect.toast "Failed to fetch tasks" ToastKind.error]
          else []))
  ∧ ((deleteSelectedTasks ok refetch s).2.filter Effect.isFetchReq).length = 1
  ∧ (deleteSelectedTasks ok refetch s).1.selectedTasks = []
  ∧ (deleteSelectedTasks ok refetch s).1.tasksToDelete = []
  ∧ (deleteSelectedTasks ok refetch s).1.isDeleteModalOpen = false := by
  have hS := batchDeleteEffects_filter_eq_nil ok s.tasksToDelete
    Effect.isSuccessToast (fun _ => rfl) (fun _ => rfl)
  have hE := batchDeleteEffects_filter_eq_nil ok s.tasksToDelete
    Effect.isErrorToast (fun _ => rfl) (fun _ => rfl)
  have hF := batchDeleteEffects_filter_eq_nil ok s.tasksToDelete
    Effect.isFetchReq (fun _ => rfl) (fun _ => rfl)
  cases refetch <;>
    simp [deleteSelectedTasks, fetchTasks, List.filter_append, hS, hE, hF,
          Effect.isSuccessToast, Effect.isErrorToast, Effect.isFetchReq,
          apply_ite (List.filter Effect.isSuccessToast),
          apply_ite (List.filter Effect.isErrorToast),
          apply_ite (List.filter Effect.isFetchReq)]

/-- The ids of the DELETE requests issued by a confirmed batch delete are
exactly the tasksToDelete snapshot of the state at confirmation. -/
lemma deleteReqIds_deleteSelectedTasks (ok : String → Bool)
    (refetch : Option (List Task)) (s : ListState) :
    deleteReqIds (deleteSelectedTasks ok refetch s).2 = s.tasksToDelete := by
  have hB := deleteReqIds_batchDeleteEffects ok s.tasksToDelete
  cases refetch <;>
    simp [deleteSelectedTasks, fetchTasks, deleteReqIds,
          List.filterMap_append,
          apply_ite (List.filterMap fun e => match e with
            | Effect.deleteReq id => some id
            | _ => none)] <;>
    simpa [deleteReqIds] using hB

/-- C9: the delete requests issued on confirming a batch delete are exactly
the selection snapshot taken when the confirmation modal was opened —
selection operations performed after opening the modal change nothing — and
the number of requests (successes plus failures) equals the snapshot size. -/
theorem batch_delete_uses_snapshot (s : ListState) (ops : List SelOp)
    (ok : String → Bool) (refetch : Option (List Task)) :
    deleteReqIds (deleteSelectedTasks ok refetch
        (applySelOps ops (openDeleteModal s))).2 = s.selectedTasks
  ∧ (deleteReqIds (deleteSelectedTasks ok refetch
        (applySelOps ops (openDeleteModal s))).2).length
      = (s.selectedTasks.filter ok).length
        + (s.selectedTasks.filter (fun id => !(ok id))).length := by
  have hsnap : (applySelOps ops (openDeleteModal s)).tasksToDelete
      = s.selectedTasks := by
    rw [applySelOps_tasksToDelete]
    rfl
  have h1 : deleteReqIds (deleteSelectedTasks ok refetch
      (applySelOps ops (openDeleteModal s))).2 = s.selectedTasks := by
    rw [deleteReqIds_deleteSelectedTasks, hsnap]
  refine ⟨h1, ?_⟩
  rw [h1]
  exact List.length_eq_length_filter_add ok

/-- C2 counterexample: from a state displaying one task whose id is
selected, deleting that task through its own delete button succeeds, the
re-fetch returns an empty collection, and the deleted id is still selected —
the selection set is no longer a subset of the displayed ids. -/
theorem selection_subset_counterexample :
    ¬ SelSubset (handleDeleteTask true (some []) "1" sampleListState).1 := by
  decide

/-- C2 amended: the selection-subset invariant is preserved by cancel,
select-all, toggling the id of a displayed task, sort toggles (whenever the
working list and the retained original order carry the same id sets, as
they do when the working list is a reordering of the fetch), and batch
delete; single-task deletion is the exception, since it leaves the
selection untouched across its re-fetch. -/
lemma toggleTaskSelection_tasks (id0 : String) (s : ListState) :
    (toggleTaskSelection id0 s).tasks = s.tasks := by
  unfold toggleTaskSelection
  split <;> rfl

lemma mem_toggleTaskSelection_selected (id0 id : String) (s : ListState)
    (h : id ∈ (toggleTaskSelection id0 s).selectedTasks) :
    id ∈ s.selectedTasks ∨ id = id0 := by
  unfold toggleTaskSelection at h
  split at h <;> simp at h
  · exact Or.inl h.1
  · tauto

lemma handleSortClick_fields (getTime : String → Int)
    (localeCompare : String → String → Int) (o : SortOption) (s : ListState) :
    (handleSortClick getTime localeCompare o s).selectedTasks
        = s.selectedTasks
  ∧ (handleSortClick getTime localeCompare o s).tasks =
      (if s.currentSort = some o then s.originalOrder
       else sortTasksList (taskCompare getTime localeCompare o) s.tasks) := by
  unfold handleSortClick applySortEffect sortTasks
  by_cases hcs : s.currentSort = some o <;> simp [hcs]

theorem selection_subset_preserved (getTime : String → Int)
    (localeCompare : String → String → Int) (s : ListState)
    (hInv : SelSubset s) :
    SelSubset (cancelSelection s)
  ∧ SelSubset (selectAllTasks s)
  ∧ (∀ id0, id0 ∈ s.tasks.map Task.id → SelSubset (toggleTaskSelection id0 s))
  ∧ ((∀ x, x ∈ s.originalOrder.map Task.id ↔ x ∈ s.tasks.map Task.id) →
      ∀ o, SelSubset (handleSortClick getTime localeCompare o s))
  ∧ (∀ ok refetch, SelSubset (deleteSelectedTasks ok refetch s).1) := by
  refine ⟨?_, ?_, ?_, ?_, ?_⟩
  · intro id hmem
    simp [cancelSelection] at hmem
  · intro id hmem
    simpa [selectAllTasks] using hmem
  · intro id0 hid0 id hmem
    rw [toggleTaskSelection_tasks]
    rcases mem_toggleTaskSelection_selected id0 id s hmem with h | h
    · exact hInv id h
    · exact h ▸ hid0
  · intro hids o id hmem
    obtain ⟨hsel, htasks⟩ := handleSortClick_fields getTime localeCompare o s
    rw [hsel] at hmem
    rw [htasks]
    by_cases hcs : s.currentSort = some o
    · rw [if_pos hcs]
      exact (hids id).mpr (hInv id hmem)
    · rw [if_neg hcs]
      obtain ⟨t, ht, hid⟩ := List.mem_map.mp (hInv id hmem)
      exact List.mem_map.mpr ⟨t, (mem_sortTasksList _ t s.tasks).mpr ht, hid⟩
  · intro ok refetch id hmem
    cases refetch <;> simp [deleteSelectedTasks, fetchTasks] at hmem

/-- Witness for the amended C2 at a concrete state with one selected,
displayed task. -/
theorem selection_subset_preserved_witness :
    SelSubset (cancelSelection sampleListState) :=
  (selection_subset_preserved (fun _ => 0) (fun _ _ => 0) sampleListState
    (by decide)).1

/-- C6 counterexample: the Dashboard collection fetch, on a non-ok HTTP
status and on a transport error alike, logs to the console and shows no
toast at all, contrary to the claim that its failure emits an error toast. -/
theorem dashboard_fetch_failure_no_toast :
    (dashboardFetchTasks FetchOutcome.httpError sampleDash).2
      = [Effect.fetchReq, Effect.logErr "Failed to fetch tasks"]
  ∧ (dashboardFetchTasks FetchOutcome.httpError sampleDash).2.filter
      Effect.isToast = []
  ∧ (dashboardFetchTasks FetchOutcome.transportError sampleDash).2.filter
      Effect.isToast = [] := by
  decide

/-- C6 amended: every failing network operation of the Task Collection View
is caught, logged and surfaced as an error toast, and a failing Dashboard
creation request likewise; the Dashboard collection fetch, however, only
catches and logs its failures and surfaces no toast. -/
theorem error_surfacing (s : ListState) (d : DashState)
    (hd : ¬ jsTrim d.taskTitle = "") :
    (fetchTasks none s).2.filter Effect.isErrorToast
      = [Effect.toast "Failed to fetch tasks" ToastKind.error]
  ∧ (fetchTasks none s).2.filter Effect.isLog
      = [Effect.logErr "Error fetching tasks:"]
  ∧ (∀ id, (handleDeleteTask false none id s).2.filter Effect.isErrorToast
      = [Effect.toast "Failed to delete task" ToastKind.error])
  ∧ (∀ msg refetch,
      (handleSubmit (SubmitOutcome.httpError msg) refetch d).2.filter
        Effect.isErrorToast
      = [Effect.toast (submitErrorMessage msg) ToastKind.error])
  ∧ (∀ refetch,
      (handleSubmit SubmitOutcome.transportError refetch d).2.filter
        Effect.isErrorToast
      = [Effect.toast "Error adding task" ToastKind.error])
  ∧ (dashboardFetchTasks FetchOutcome.httpError d).2.filter Effect.isToast
      = []
  ∧ (dashboardFetchTasks FetchOutcome.transportError d).2.filter
      Effect.isToast = []
  ∧ (dashboardFetchTasks FetchOutcome.httpError d).2.filter Effect.isLog
      = [Effect.logErr "Failed to fetch tasks"]
  ∧ (dashboardFetchTasks FetchOutcome.transportError d).2.filter
      Effect.isLog = [Effect.logErr "Error fetching tasks:"] := by
  refine ⟨?_, ?_, fun id => ?_, fun msg refetch => ?_, fun refetch => ?_,
          ?_, ?_, ?_, ?_⟩ <;>
    simp [fetchTasks, handleDeleteTask, handleSubmit, dashboardFetchTasks,
          hd, Effect.isErrorToast, Effect.isToast, Effect.isLog]

/-- Witness for the amended C6 at concrete states. -/
theorem error_surfacing_witness :
    (fetchTasks none sampleListState).2.filter Effect.isErrorToast
      = [Effect.toast "Failed to fetch tasks" ToastKind.error] :=
  (error_surfacing sampleListState sampleDash (by decide)).1

/-- C8: with a nonblank title, a successful creation resets every form
field to its default, shows the success toast and re-fetches the
collection; a non-ok response keeps the whole form state and shows the
server message with generic fallback for an absent or empty one; a
transport error keeps the form state and shows the generic error toast. -/
theorem submit_result_contract (s : DashState) (refetch : FetchOutcome)
    (h : ¬ jsTrim s.taskTitle = "") :
    ((handleSubmit SubmitOutcome.ok refetch s).1.taskTitle = ""
      ∧ (handleSubmit SubmitOutcome.ok refetch s).1.taskDescription = ""
      ∧ (handleSubmit SubmitOutcome.ok refetch s).1.dueDate = ""
      ∧ (handleSubmit SubmitOutcome.ok refetch s).1.priority = ""
      ∧ (handleSubmit SubmitOutcome.ok refetch s).1.status = "Not Started"
      ∧ (handleSubmit SubmitOutcome.ok refetch s).1.tags = ""
      ∧ Effect.toast "Task added successfully!" ToastKind.success
          ∈ (handleSubmit SubmitOutcome.ok refetch s).2
      ∧ Effect.fetchReq ∈ (handleSubmit SubmitOutcome.ok refetch s).2)
  ∧ (∀ msg, (handleSubmit (SubmitOutcome.httpError msg) refetch s).1 = s
      ∧ Effect.toast (submitErrorMessage msg) ToastKind.error
          ∈ (handleSubmit (SubmitOutcome.httpError msg) refetch s).2)
  ∧ ((handleSubmit SubmitOutcome.transportError refetch s).1 = s
      ∧ Effect.toast "Error adding task" ToastKind.error
          ∈ (handleSubmit SubmitOutcome.transportError refetch s).2)
  ∧ (∀ m, ¬ m = "" → submitErrorMessage (some m) = m)
  ∧ submitErrorMessage none = "Failed to add task"
  ∧ submitErrorMessage (some "") = "Failed to add task" := by
  refine ⟨?_, fun msg => ⟨?_, ?_⟩, ⟨?_, ?_⟩, fun m hm => ?_, rfl, rfl⟩ <;>
    first
      | (cases refetch <;>
          simp [handleSubmit, dashboardFetchTasks, resetForm, h])
      | simp [handleSubmit, h]
      | simp [submitErrorMessage, hm]

/-- Witness for C8: concrete nonblank-title form state. -/
theorem submit_result_contract_witness :
    (handleSubmit SubmitOutcome.ok (FetchOutcome.ok []) sampleDash).1.taskTitle
      = "" :=
  (submit_result_contract sampleDash (FetchOutcome.ok []) (by decide)).1.1

end TaskEzy
